import Mathlib

/-!
Shallow embedding of the property-binding analyzer of
`src/analysis/properties.rs` (the gir code generator).

The analyzer itself (`analyze`, `analyze_property`, `get_type_default_value`,
`PropertyConversion`) is translated directly from the source.  External
collaborators that live outside the analyzed file (the `Env` lookups, the
Signature Registry, `RefMode::of`, `Bound::get_for_property_setter`,
`nameutil`, `rust_type`, the trampoline synthesizer) are modelled as oracle
fields of an `Env` record: the theorems quantify over every possible oracle.
Side effects of the source (the `Imports` collector, the `error!` diagnostic
log, the `Trampolines` accumulator) are made explicit by state passing.
-/

/-- A version number (`version::Version` in the source); ordering on
`Option Version` follows Rust's derived `Ord` on `Option<Version>`, where
`None` is the minimum. -/
abbrev Version := Nat

/-- Rust's `Option::le` via derived `Ord` on `Option<Version>`:
`None` compares below everything. -/
def optVersionLe : Option Version → Option Version → Bool
  | none, _ => true
  | some _, none => false
  | some a, some b => decide (a ≤ b)

/-- Rust's `Iterator::min` over a list of versions: `none` iff the list is
empty, otherwise the least element. -/
def minOpt : List Version → Option Version
  | [] => none
  | x :: xs =>
    match minOpt xs with
    | none => some x
    | some m => some (min x m)

/-- Rust's `Option::or`. -/
def orOpt : Option Version → Option Version → Option Version
  | some a, _ => some a
  | none, b => b

/-- Identifier of a type in the introspection library (`library::TypeId`). -/
abbrev TypeId := Nat

/-- Source `library::Fundamental` restricted to the variants that the analyzed file
matches by name; `Other` stands for every remaining variant, all of which
fall into the source's wildcard arm. -/
inductive Fundamental
  | Boolean | Int | UInt | Utf8 | Float | Double
  | Int8 | UInt8 | Int16 | UInt16 | Int32 | UInt32 | Int64 | UInt64
  | Char | UChar | Size | SSize | Pointer | Typ | Other
  deriving DecidableEq, Repr

/-- Source `library::Type` restricted to the constructors the analyzed file matches
on; `OtherType` stands for every remaining variant (containers, callbacks,
unions, ...), all of which fall into the source's wildcard arms. -/
inductive LType
  | Fundamental (f : Fundamental)
  | Bitfield (name : String)
  | Enumeration (name : String)
  | Class (name : String)
  | Record (name : String)
  | Interface (name : String)
  | OtherType (name : String)
  deriving DecidableEq, Repr

/-- Source `library::ParameterDirection`. -/
inductive ParameterDirection
  | In | Out | Return | InOut
  deriving DecidableEq, Repr

/-- Source `library::Transfer`. -/
inductive Transfer
  | None | Container | Full
  deriving DecidableEq, Repr

/-- Modelled from the spec: the reference-mode type (`analysis::ref_mode::RefMode`,
not under `src/`): a value crosses an interface by value, by immutable
reference, or by mutable reference. -/
inductive RefMode
  | ByValue | ByRef | ByRefMut
  deriving DecidableEq, Repr

/-- Modelled from the spec: `RefMode::is_ref` — whether the mode is a
reference at all (immutable or mutable). -/
def RefMode.is_ref : RefMode → Bool
  | .ByValue => false
  | .ByRef => true
  | .ByRefMut => true

/-- A generic capability bound (`analysis::bounds::Bound`, external to the
analyzed file); kept abstract as an opaque payload string. -/
abbrev Bound := String

/-- Source `library::Property` — the analyzer's input record (only the fields the
analyzed file reads). -/
structure LibraryProperty where
  name : String
  typ : TypeId
  readable : Bool
  writable : Bool
  construct_only : Bool
  version : Option Version
  deprecated_version : Option Version
  deriving DecidableEq, Repr

/-- Source `config::properties::Property` — one configured override matched by
property name (only the fields the analyzed file reads). -/
structure ConfigProperty where
  ignore : Bool
  version : Option Version
  deriving DecidableEq, Repr

/-- Source `library::Parameter` (used for the synthetic notify signal's return). -/
structure Parameter where
  name : String
  typ : TypeId
  c_type : String
  instance_parameter : Bool
  direction : ParameterDirection
  transfer : Transfer
  caller_allocates : Bool
  nullable : Bool
  allow_none : Bool
  array_length : Option Nat
  is_error : Bool
  doc : Option String
  deriving DecidableEq, Repr

/-- Source `library::Signal` (the synthetic `notify::<name>` signal shape). -/
structure Signal where
  name : String
  parameters : List Parameter
  ret : Parameter
  version : Option Version
  deprecated_version : Option Version
  doc : Option String
  doc_deprecated : Option String
  deriving DecidableEq, Repr

/-- The trampoline accumulator (`trampolines::Trampolines`), abstract. -/
abbrev Trampolines := List String

/-- One registration against the import collector (`analysis::imports::Imports`):
the collector is modelled as the list of registration events, in order. -/
inductive ImportEvent
  | add (name : String) (version : Option Version)
  | addUsedType (name : String) (version : Option Version)
  deriving DecidableEq, Repr

/-- The import collector state: the events registered so far, in order. -/
abbrev Imports := List ImportEvent

/-- Source `Imports::add`. -/
def Imports.addI (imports : Imports) (name : String) (version : Option Version) :
    Imports :=
  imports ++ [ImportEvent.add name version]

/-- Source `Imports::add_used_type`. -/
def Imports.addUsedTypeI (imports : Imports) (name : String)
    (version : Option Version) : Imports :=
  imports ++ [ImportEvent.addUsedType name version]

/-- Source `Imports::add_used_types` — registers each used type in order. -/
def Imports.addUsedTypesI (imports : Imports) (used_types : List String)
    (version : Option Version) : Imports :=
  used_types.foldl (fun acc s => acc.addUsedTypeI s version) imports

/-- Source `GObject` configuration record: all the analyzed file uses of it is
`obj.properties.matched(&prop.name)` (plus passing it to the trampoline
synthesizer, which here is an oracle). -/
structure GObject where
  propertiesMatched : String → List ConfigProperty

/-- The analysis environment plus every external collaborator of the analyzed
file, as oracles; theorems quantify over all of them.
`hasByNameAndInDeps` folds the fixed `signatures` and `deps` arguments of
`Signature::has_by_name_and_in_deps` into the oracle. -/
structure Env where
  types : TypeId → LType
  is_totally_deprecated : Option Version → Bool
  rustType : TypeId → Except String String
  usedRustType : TypeId → Except String String
  refModeOf : TypeId → ParameterDirection → RefMode
  boundForPropertySetter : String → TypeId → Bool → Option Bound
  hasByNameAndInDeps : String → Bool × Option Version
  signalToSnake : String → String
  mangleKeywords : String → String
  noneType : TypeId
  trampolineAnalyze : Trampolines → Signal → TypeId → Bool → GObject →
    Option Version → Except String String × Trampolines × List String

/-- Source `Result::into_string` on `rust_type`'s result: both the success and the
error payload carry the rendered type name. -/
def intoString : Except String String → String
  | .ok s => s
  | .error s => s

/-- Source `Result::is_ok`. -/
def isOkE : Except String String → Bool
  | .ok _ => true
  | .error _ => false

/-- Source `PropertyConversion` from the source. -/
inductive PropertyConversion
  | Direct | AsI32 | Bitflag
  deriving DecidableEq, Repr

/-- Source `PropertyConversion::of` from the source. -/
def PropertyConversion.of : LType → PropertyConversion
  | .Bitfield _ => .Bitflag
  | .Enumeration _ => .AsI32
  | _ => .Direct

/-- Source `get_type_default_value` from the source, line for line. -/
def get_type_default_value (env : Env) (type_tid : TypeId) (type_ : LType) :
    Option String :=
  match type_ with
  | .Fundamental fund =>
    match fund with
    | .Boolean => some "&false"
    | .Int => some "&0"
    | .UInt => some "&0u32"
    | .Utf8 => some "None::<&str>"
    | .Float => some "&0f32"
    | .Double => some "&0f64"
    | .Int8 => some "&0i8"
    | .UInt8 => some "&0u8"
    | .Int16 => some "&0i16"
    | .UInt16 => some "&0u16"
    | .Int32 => some "&0i32"
    | .UInt32 => some "&0u32"
    | .Int64 => some "&0i64"
    | .UInt64 => some "&0u64"
    | .Char => some "&0i8"
    | .UChar => some "&0u8"
    | .Size => some "&0isize"
    | .SSize => some "&0usize"
    | .Pointer => some "::std::ptr::null_mut()"
    | .Typ => some "&gobject_sys::G_TYPE_NONE"
    | _ => none
  | .Bitfield _ => some "&0u32"
  | .Enumeration _ => some "&0"
  | .Class _ | .Record _ | .Interface _ =>
    some ("None::<&" ++ intoString (env.rustType type_tid) ++ ">")
  | _ => none

/-- Decidable equality for the trampoline result stored in a signal info. -/
instance : DecidableEq (Except String String) := fun a b =>
  match a, b with
  | .ok x, .ok y =>
    if h : x = y then .isTrue (by rw [h])
    else .isFalse (by intro hh; cases hh; exact h rfl)
  | .ok _, .error _ => .isFalse (by intro hh; cases hh)
  | .error _, .ok _ => .isFalse (by intro hh; cases hh)
  | .error x, .error y =>
    if h : x = y then .isTrue (by rw [h])
    else .isFalse (by intro hh; cases hh; exact h rfl)

/-- The output descriptor `Property` of the analyzed file. -/
structure Property where
  name : String
  var_name : String
  typ : TypeId
  is_get : Bool
  func_name : String
  nullable : Bool
  conversion : PropertyConversion
  default_value : Option String
  get_out_ref_mode : RefMode
  set_in_ref_mode : RefMode
  version : Option Version
  deprecated_version : Option Version
  bound : Option Bound
  deriving DecidableEq, Repr

/-- Source `signals::Info` — the notification-signal descriptor. -/
structure SignalInfo where
  connect_name : String
  signal_name : String
  trampoline_name : Except String String
  version : Option Version
  deprecated_version : Option Version
  doc_hidden : Bool
  deriving DecidableEq, Repr

/-- The effective version of a property: minimum of the matched overrides'
declared versions, falling back to the property's own version
(source: `configured_properties.iter().filter_map(|f| f.version).min().or(prop.version)`). -/
def prop_effective_version (configured_properties : List ConfigProperty)
    (version : Option Version) : Option Version :=
  orOpt (minOpt (configured_properties.filterMap (fun f => f.version))) version

/-- The manual-override suppression test of the source: the Signature
Registry reports a function of this name in the type or its dependencies,
and that function is totally deprecated or its version is at or before the
effective version. -/
def suppress_by_signature (env : Env) (check_name : String)
    (prop_version : Option Version) : Bool :=
  let hv := env.hasByNameAndInDeps check_name
  hv.1 && (env.is_totally_deprecated hv.2 || optVersionLe hv.2 prop_version)

/-- Normalization of the setter's input reference mode
(source: `if set_in_ref_mode == RefMode::ByRefMut { set_in_ref_mode = RefMode::ByRef }`). -/
def normalize_set_in_ref_mode (m : RefMode) : RefMode :=
  if m = RefMode.ByRefMut then RefMode.ByRef else m

/-- The synthetic `notify::<name>` signal shape handed to the trampoline
synthesizer (source: the `library::Signal` literal inside `analyze_property`). -/
def notify_signal_shape (env : Env) (name : String)
    (prop_version deprecated_version : Option Version) : Signal :=
  { name := "notify::" ++ name
    parameters := []
    ret :=
      { name := ""
        typ := env.noneType
        c_type := "none"
        instance_parameter := false
        direction := ParameterDirection.Return
        transfer := Transfer.None
        caller_allocates := false
        nullable := false
        allow_none := false
        array_length := none
        is_error := false
        doc := none }
    version := prop_version
    deprecated_version := deprecated_version
    doc := none
    doc_deprecated := none }

/-- The result of `analyze_property`: the getter/setter/signal triple, plus
the threaded trampoline, import and diagnostic state. -/
structure PropertyAnalysis where
  getter : Option Property
  setter : Option Property
  notify_signal : Option SignalInfo
  trampolines : Trampolines
  imports : Imports
  diagnostics : List String
  deriving Repr

/-- Source `analyze_property` from the source, line for line; the `&mut` arguments
(`trampolines`, `imports`) are threaded explicitly and the `error!`
diagnostic is returned in `diagnostics`. -/
def analyze_property (env : Env) (prop : LibraryProperty) (type_tid : TypeId)
    (configured_properties : List ConfigProperty) (generate_trait : Bool)
    (obj : GObject) (trampolines : Trampolines) (imports : Imports) :
    PropertyAnalysis :=
  let name := prop.name
  let type_ := env.types prop.typ
  let prop_version := prop_effective_version configured_properties prop.version
  let name_for_func := env.signalToSnake name
  let var_name := env.mangleKeywords name_for_func
  let get_func_name := "get_property_" ++ name_for_func
  let set_func_name := "set_property_" ++ name_for_func
  let check_get_func_name := "get_" ++ name_for_func
  let check_set_func_name := "set_" ++ name_for_func
  let readable := prop.readable
  let writable := if prop.construct_only then false else prop.writable
  let readable :=
    readable && !(suppress_by_signature env check_get_func_name prop_version)
  let writable :=
    writable && !(suppress_by_signature env check_set_func_name prop_version)
  let default_value := get_type_default_value env prop.typ type_
  let diagnostics :=
    if default_value.isNone && readable then
      ["No default value for getter of property `" ++ name ++ "` for `" ++
        intoString (env.rustType type_tid) ++ "`"]
    else []
  let readable := readable && default_value.isSome
  let conversion := PropertyConversion.of type_
  let get_out_ref_mode := env.refModeOf prop.typ ParameterDirection.Return
  let set_in_ref_mode :=
    normalize_set_in_ref_mode (env.refModeOf prop.typ ParameterDirection.In)
  let nullable := set_in_ref_mode.is_ref
  let getter : Option Property :=
    if readable then
      some
        { name := name
          var_name := ""
          typ := prop.typ
          is_get := true
          func_name := get_func_name
          nullable := nullable
          conversion := conversion
          default_value := default_value
          get_out_ref_mode := get_out_ref_mode
          set_in_ref_mode := set_in_ref_mode
          version := prop_version
          deprecated_version := prop.deprecated_version
          bound := none }
    else none
  let setter : Option Property :=
    if writable then
      let bound := env.boundForPropertySetter var_name prop.typ nullable
      some
        { name := name
          var_name := var_name
          typ := prop.typ
          is_get := false
          func_name := set_func_name
          nullable := nullable
          conversion := conversion
          default_value := none
          get_out_ref_mode := get_out_ref_mode
          set_in_ref_mode := set_in_ref_mode
          version := prop_version
          deprecated_version := prop.deprecated_version
          bound := bound }
    else none
  let t := env.trampolineAnalyze trampolines
    (notify_signal_shape env name prop_version prop.deprecated_version)
    type_tid generate_trait obj prop_version
  let trampoline_name := t.1
  let trampolines := t.2.1
  let used_types := t.2.2
  let signal_and_imports : Option SignalInfo × Imports :=
    match trampoline_name with
    | Except.ok tn =>
      let imports := imports.addUsedTypesI used_types prop_version
      let imports :=
        if generate_trait then
          (imports.addI "glib" prop_version).addI "glib::object::Downcast"
            prop_version
        else imports
      let imports := imports.addI "glib::signal::connect" prop_version
      let imports := imports.addI "glib::signal::SignalHandlerId" prop_version
      let imports := imports.addI "std::mem::transmute" prop_version
      let imports := imports.addI "std::boxed::Box as Box_" prop_version
      let imports := imports.addI "glib_ffi" prop_version
      (some
        { connect_name := "connect_property_" ++ name_for_func ++ "_notify"
          signal_name := "notify::" ++ name
          trampoline_name := Except.ok tn
          version := prop_version
          deprecated_version := prop.deprecated_version
          doc_hidden := false }, imports)
    | Except.error _ => (none, imports)
  { getter := getter
    setter := setter
    notify_signal := signal_and_imports.1
    trampolines := trampolines
    imports := signal_and_imports.2
    diagnostics := diagnostics }

/-- The accumulated state of one `analyze` invocation: the two result vectors
plus the threaded trampoline, import and diagnostic state. -/
structure AnalyzeState where
  properties : List Property
  notify_signals : List SignalInfo
  trampolines : Trampolines
  imports : Imports
  diagnostics : List String
  deriving Repr

/-- One iteration of the property loop of `analyze`, line for line. -/
def analyze_step (env : Env) (type_tid : TypeId) (generate_trait : Bool)
    (obj : GObject) (st : AnalyzeState) (prop : LibraryProperty) :
    AnalyzeState :=
  let configured_properties := obj.propertiesMatched prop.name
  if configured_properties.any (fun f => f.ignore) then st
  else if env.is_totally_deprecated prop.deprecated_version then st
  else
    let r := analyze_property env prop type_tid configured_properties
      generate_trait obj st.trampolines st.imports
    let st :=
      { st with
        trampolines := r.trampolines
        imports := r.imports
        diagnostics := st.diagnostics ++ r.diagnostics }
    let st :=
      match r.notify_signal with
      | some ns => { st with notify_signals := st.notify_signals ++ [ns] }
      | none => st
    if r.getter.isNone && r.setter.isNone then st
    else
      let type_string := env.rustType prop.typ
      let used_type_string := env.usedRustType prop.typ
      let st :=
        match r.getter with
        | some p =>
          let imports := st.imports
          let imports :=
            match used_type_string with
            | Except.ok s => imports.addUsedTypeI s p.version
            | Except.error _ => imports
          let imports :=
            if p.conversion ≠ PropertyConversion.Direct then
              imports.addI "std::mem::transmute" p.version
            else imports
          let imports :=
            if isOkE type_string && p.default_value.isSome then
              imports.addI "glib::Value" p.version
            else imports
          { st with imports := imports, properties := st.properties ++ [p] }
        | none => st
      let st :=
        match r.setter with
        | some p =>
          let imports := st.imports
          let imports :=
            match used_type_string with
            | Except.ok s => imports.addUsedTypeI s p.version
            | Except.error _ => imports
          let imports :=
            if isOkE type_string then imports.addI "glib::Value" p.version
            else imports
          let imports :=
            if p.bound.isSome then
              (imports.addI "glib" p.version).addI "glib::object::IsA"
                p.version
            else imports
          { st with imports := imports, properties := st.properties ++ [p] }
        | none => st
      st

/-- Source `analyze` from the source: folds the property loop over the input
properties in order, starting from empty result vectors and the caller's
trampoline/import state. -/
def analyze (env : Env) (props : List LibraryProperty) (type_tid : TypeId)
    (generate_trait : Bool) (trampolines : Trampolines) (obj : GObject)
    (imports : Imports) : AnalyzeState :=
  props.foldl (analyze_step env type_tid generate_trait obj)
    { properties := []
      notify_signals := []
      trampolines := trampolines
      imports := imports
      diagnostics := [] }

/-- A concrete environment for witnesses and counterexamples: boolean-typed
properties, no manual accessors, no deprecation, trampoline synthesis always
succeeding with name `"tramp"`. -/
def env0 : Env :=
  { types := fun _ => LType.Fundamental Fundamental.Boolean
    is_totally_deprecated := fun _ => false
    rustType := fun _ => Except.ok "Widget"
    usedRustType := fun _ => Except.ok "Widget"
    refModeOf := fun _ _ => RefMode.ByValue
    boundForPropertySetter := fun _ _ _ => none
    hasByNameAndInDeps := fun _ => (false, none)
    signalToSnake := fun s => s
    mangleKeywords := fun s => s
    noneType := 0
    trampolineAnalyze := fun tr _ _ _ _ _ => (Except.ok "tramp", tr, []) }

/-- A concrete configuration object matching no overrides. -/
def obj0 : GObject := { propertiesMatched := fun _ => [] }

/-- A concrete readable and writable boolean property `"active"`. -/
def prop0 : LibraryProperty :=
  { name := "active"
    typ := 0
    readable := true
    writable := true
    construct_only := false
    version := some 1
    deprecated_version := none }

/-- The analysis state at the start of one `analyze` run with empty caller
state, for witnesses. -/
def st0 : AnalyzeState :=
  { properties := []
    notify_signals := []
    trampolines := []
    imports := []
    diagnostics := [] }

/-- The getter descriptor that `analyze_property env0 prop0 ...` produces. -/
def getter0 : Property :=
  { name := "active"
    var_name := ""
    typ := 0
    is_get := true
    func_name := "get_property_active"
    nullable := false
    conversion := PropertyConversion.Direct
    default_value := some "&false"
    get_out_ref_mode := RefMode.ByValue
    set_in_ref_mode := RefMode.ByValue
    version := some 1
    deprecated_version := none
    bound := none }

/-- The setter descriptor that `analyze_property env0 prop0 ...` produces. -/
def setter0 : Property :=
  { name := "active"
    var_name := "active"
    typ := 0
    is_get := false
    func_name := "set_property_active"
    nullable := false
    conversion := PropertyConversion.Direct
    default_value := none
    get_out_ref_mode := RefMode.ByValue
    set_in_ref_mode := RefMode.ByValue
    version := some 1
    deprecated_version := none
    bound := none }

/-- A readable-only property declared at version 5, for the C1 counterexample. -/
def propC1 : LibraryProperty :=
  { prop0 with writable := false, version := some 5 }

/-- A configuration whose single matched override declares version 3 (below
the property's declared version 5), for the C1 counterexample. -/
def objC1 : GObject :=
  { propertiesMatched := fun _ => [{ ignore := false, version := some 3 }] }

/-- An environment whose Signature Registry reports a manual accessor of
every queried name at version 0, for the C2 witness. -/
def env2 : Env := { env0 with hasByNameAndInDeps := fun _ => (true, some 0) }
/-- An environment in which every type is a container-like type with no
default value, for the C5 witness. -/
def envND : Env := { env0 with types := fun _ => LType.OtherType "GList" }
/-- A configuration whose matched override carries `ignore = true`, for the
C8 witness. -/
def objIgnore : GObject :=
  { propertiesMatched := fun _ => [{ ignore := true, version := none }] }
/-- An environment whose trampoline synthesizer always fails, for the C4
witness. -/
def envTF : Env :=
  { env0 with
    trampolineAnalyze := fun tr _ _ _ _ _ => (Except.error "bad", tr, []) }

/-- C1 counterexample: the claim "every produced descriptor's effective
version is ≥ the property's own declared version" is false: for a property
declared at version 5 with a matched override declaring version 3, the
analyzer produces a getter descriptor carrying effective version 3, and
version 5 ≤ version 3 does not hold. -/
theorem C1_counterexample :
    (analyze env0 [propC1] 0 false [] objC1 []).properties.map
        (fun p => p.version) = [some 3] ∧
    optVersionLe propC1.version (some 3) = false := by
  constructor
  · rfl
  · rfl

/-- C1 (amended): every descriptor produced by `analyze_property` (getter,
setter, or notification signal) carries exactly the effective version
`min(override versions).or(declared version)`; this may lie below the
property's declared version when an override declares a lower version, and
it equals (hence is not below) the declared version whenever no matched
override declares a version. -/
theorem C1_amended (env : Env) (prop : LibraryProperty) (type_tid : TypeId)
    (cfg : List ConfigProperty) (generate_trait : Bool) (obj : GObject)
    (tr : Trampolines) (imp : Imports) :
    (∀ g, (analyze_property env prop type_tid cfg generate_trait obj tr
        imp).getter = some g →
      g.version = prop_effective_version cfg prop.version) ∧
    (∀ s, (analyze_property env prop type_tid cfg generate_trait obj tr
        imp).setter = some s →
      s.version = prop_effective_version cfg prop.version) ∧
    (∀ i, (analyze_property env prop type_tid cfg generate_trait obj tr
        imp).notify_signal = some i →
      i.version = prop_effective_version cfg prop.version) ∧
    (cfg.filterMap (fun f => f.version) = [] →
      prop_effective_version cfg prop.version = prop.version) := by
  refine ⟨?_, ?_, ?_, ?_⟩
  · intro g hg
    simp only [analyze_property] at hg
    repeat' split at hg
    all_goals first | (cases hg; rfl) | cases hg
  · intro s hs
    simp only [analyze_property] at hs
    repeat' split at hs
    all_goals first | (cases hs; rfl) | cases hs
  · intro i hi
    simp only [analyze_property] at hi
    repeat' split at hi
    all_goals first | (cases hi; rfl) | cases hi
  · intro hnone
    simp [prop_effective_version, hnone, minOpt, orOpt]

/-- C1 witness: on the concrete boolean property `"active"` with no
overrides, the getter descriptor exists, carries the effective version, and
that effective version equals the declared one. -/
theorem C1_amended_witness :
    (analyze_property env0 prop0 0 [] false obj0 [] []).getter =
      some getter0 ∧
    getter0.version = prop_effective_version [] prop0.version ∧
    prop_effective_version [] prop0.version = prop0.version :=
  ⟨rfl, (C1_amended env0 prop0 0 [] false obj0 [] []).1 getter0 rfl,
    (C1_amended env0 prop0 0 [] false obj0 [] []).2.2.2 rfl⟩

/-- C3: evaluation of the default-value resolver at the size categories.
The source maps the (unsigned) `Size` category to the signed literal
`&0isize` and the signed `SSize` category to the unsigned literal
`&0usize` — the suffixes are swapped with respect to the categories'
signedness, contradicting the claim that each integer category yields a
zero of its exact width and signedness. -/
theorem C3_size_literals_swapped :
    get_type_default_value env0 0 (LType.Fundamental Fundamental.Size) =
      some "&0isize" ∧
    get_type_default_value env0 0 (LType.Fundamental Fundamental.SSize) =
      some "&0usize" :=
  ⟨rfl, rfl⟩

/-- No normalization result is ever the mutable-reference mode. -/
theorem normalize_ne_refmut (m : RefMode) :
    normalize_set_in_ref_mode m ≠ RefMode.ByRefMut := by
  cases m <;> decide

/-- C6: every produced setter descriptor has a non-mutable input reference
mode: the reference-mode resolver's answer for the `In` direction is
normalized (mutable becomes immutable) before the descriptor is built. -/
theorem C6_setter_in_ref_mode_never_mut (env : Env) (prop : LibraryProperty)
    (type_tid : TypeId) (cfg : List ConfigProperty) (generate_trait : Bool)
    (obj : GObject) (tr : Trampolines) (imp : Imports) (s : Property)
    (hs : (analyze_property env prop type_tid cfg generate_trait obj tr
      imp).setter = some s) :
    s.set_in_ref_mode ≠ RefMode.ByRefMut := by
  simp only [analyze_property] at hs
  repeat' split at hs
  all_goals first | (cases hs; exact normalize_ne_refmut _) | cases hs

/-- C6 witness: the concrete property `"active"` produces a setter, whose
input reference mode is not mutable. -/
theorem C6_witness :
    (analyze_property env0 prop0 0 [] false obj0 [] []).setter =
      some setter0 ∧
    setter0.set_in_ref_mode ≠ RefMode.ByRefMut :=
  ⟨rfl, C6_setter_in_ref_mode_never_mut env0 prop0 0 [] false obj0 [] []
    setter0 rfl⟩

/-- C7: a construct-only property never yields a setter descriptor,
whatever its declared `writable` flag and whatever the oracles answer. -/
theorem C7_construct_only_no_setter (env : Env) (prop : LibraryProperty)
    (type_tid : TypeId) (cfg : List ConfigProperty) (generate_trait : Bool)
    (obj : GObject) (tr : Trampolines) (imp : Imports)
    (h : prop.construct_only = true) :
    (analyze_property env prop type_tid cfg generate_trait obj tr
      imp).setter = none := by
  simp [analyze_property, h]

/-- C7 witness: a construct-only variant of the concrete property yields no
setter. -/
theorem C7_witness :
    (analyze_property env0 { prop0 with construct_only := true } 0 [] false
      obj0 [] []).setter = none :=
  C7_construct_only_no_setter env0 { prop0 with construct_only := true } 0 []
    false obj0 [] [] rfl

/-- C9: the analyzer is a pure function of its inputs — the embedding has no
ambient state (every collaborator is an explicit oracle, iteration is an
in-order fold over the input list), so two runs on identical inputs return
identical descriptor lists, signal lists and symbol registrations, in the
same order. -/
theorem C9_deterministic (env : Env) (props : List LibraryProperty)
    (type_tid : TypeId) (generate_trait : Bool) (tr : Trampolines)
    (obj : GObject) (imp : Imports) :
    analyze env props type_tid generate_trait tr obj imp =
      analyze env props type_tid generate_trait tr obj imp := rfl


/-- C2: manual-override precedence.  If the Signature Registry reports an
existing `get_<name>` (resp. `set_<name>`) function that is totally
deprecated or whose version is at or before the effective version, then the
getter (resp. setter) descriptor is suppressed, whatever the declared
readable/writable flags. -/
theorem C2_manual_override_suppression (env : Env) (prop : LibraryProperty)
    (type_tid : TypeId) (cfg : List ConfigProperty) (generate_trait : Bool)
    (obj : GObject) (tr : Trampolines) (imp : Imports) :
    (suppress_by_signature env ("get_" ++ env.signalToSnake prop.name)
        (prop_effective_version cfg prop.version) = true →
      (analyze_property env prop type_tid cfg generate_trait obj tr
        imp).getter = none) ∧
    (suppress_by_signature env ("set_" ++ env.signalToSnake prop.name)
        (prop_effective_version cfg prop.version) = true →
      (analyze_property env prop type_tid cfg generate_trait obj tr
        imp).setter = none) := by
  constructor
  · intro h
    simp [analyze_property, h]
  · intro h
    simp [analyze_property, h]

/-- C2 witness: with a registry reporting `get_active` and `set_active` at
version 0 (at or before the effective version 1), the readable and writable
property `"active"` yields neither getter nor setter. -/
theorem C2_witness :
    suppress_by_signature env2 ("get_" ++ env2.signalToSnake prop0.name)
      (prop_effective_version [] prop0.version) = true ∧
    (analyze_property env2 prop0 0 [] false obj0 [] []).getter = none ∧
    (analyze_property env2 prop0 0 [] false obj0 [] []).setter = none :=
  ⟨rfl, (C2_manual_override_suppression env2 prop0 0 [] false obj0 [] []).1
    rfl,
    (C2_manual_override_suppression env2 prop0 0 [] false obj0 [] []).2 rfl⟩


/-- C5: if the property's type has no default value and the property is
otherwise readable (declared readable, not suppressed by a manual
accessor), then no getter is produced, exactly one diagnostic naming the
property and the owning type is emitted, and the setter and the
notification signal are exactly those of the same property with the
readable flag cleared (i.e. they are unaffected); the remaining properties
of an `analyze` run are then processed from the updated state as always. -/
theorem C5_no_default_value (env : Env) (prop : LibraryProperty)
    (type_tid : TypeId) (cfg : List ConfigProperty) (generate_trait : Bool)
    (obj : GObject) (tr : Trampolines) (imp : Imports)
    (hr : prop.readable = true)
    (hs : suppress_by_signature env ("get_" ++ env.signalToSnake prop.name)
      (prop_effective_version cfg prop.version) = false)
    (hd : get_type_default_value env prop.typ (env.types prop.typ) = none) :
    (analyze_property env prop type_tid cfg generate_trait obj tr
      imp).getter = none ∧
    (analyze_property env prop type_tid cfg generate_trait obj tr
        imp).diagnostics =
      ["No default value for getter of property `" ++ prop.name ++
        "` for `" ++ intoString (env.rustType type_tid) ++ "`"] ∧
    (analyze_property env prop type_tid cfg generate_trait obj tr
        imp).setter =
      (analyze_property env { prop with readable := false } type_tid cfg
        generate_trait obj tr imp).setter ∧
    (analyze_property env prop type_tid cfg generate_trait obj tr
        imp).notify_signal =
      (analyze_property env { prop with readable := false } type_tid cfg
        generate_trait obj tr imp).notify_signal ∧
    (∀ rest, analyze env (prop :: rest) type_tid generate_trait tr obj imp =
      rest.foldl (analyze_step env type_tid generate_trait obj)
        (analyze_step env type_tid generate_trait obj
          { properties := []
            notify_signals := []
            trampolines := tr
            imports := imp
            diagnostics := [] } prop)) := by
  refine ⟨?_, ?_, ?_, ?_, ?_⟩
  · simp [analyze_property, hr, hs, hd]
  · simp [analyze_property, hr, hs, hd]
  · simp [analyze_property]
  · simp [analyze_property]
  · intro rest
    rfl

/-- C5 witness: the readable and writable property `"active"` over a
container-like type yields no getter, the expected diagnostic, and the same
setter and signal as its readable-cleared variant. -/
theorem C5_witness :
    (analyze_property envND prop0 0 [] false obj0 [] []).getter = none ∧
    (analyze_property envND prop0 0 [] false obj0 [] []).diagnostics =
      ["No default value for getter of property `" ++ prop0.name ++
        "` for `" ++ intoString (envND.rustType 0) ++ "`"] ∧
    (analyze_property envND prop0 0 [] false obj0 [] []).setter =
      (analyze_property envND { prop0 with readable := false } 0 [] false
        obj0 [] []).setter ∧
    (analyze_property envND prop0 0 [] false obj0 [] []).notify_signal =
      (analyze_property envND { prop0 with readable := false } 0 [] false
        obj0 [] []).notify_signal :=
  ⟨(C5_no_default_value envND prop0 0 [] false obj0 [] [] rfl rfl rfl).1,
    (C5_no_default_value envND prop0 0 [] false obj0 [] [] rfl rfl rfl).2.1,
    (C5_no_default_value envND prop0 0 [] false obj0 [] [] rfl rfl rfl).2.2.1,
    (C5_no_default_value envND prop0 0 [] false obj0 [] []
      rfl rfl rfl).2.2.2.1⟩

/-- C8: a property matched by an `ignore` override, or totally deprecated
for the environment, leaves the analysis state untouched: no descriptors,
no signal, no imports, no diagnostics. -/
theorem C8_skip_silently (env : Env) (type_tid : TypeId)
    (generate_trait : Bool) (obj : GObject) (st : AnalyzeState)
    (prop : LibraryProperty)
    (h : (obj.propertiesMatched prop.name).any (fun f => f.ignore) = true ∨
      env.is_totally_deprecated prop.deprecated_version = true) :
    analyze_step env type_tid generate_trait obj st prop = st := by
  rcases h with h | h
  · simp [analyze_step, h]
  · by_cases hig : (obj.propertiesMatched prop.name).any (fun f => f.ignore) =
      true
    · simp [analyze_step, hig]
    · simp at hig
      simp [analyze_step, hig, h]


/-- C8 witness: with an `ignore` override matched, one step of the property
loop returns the state unchanged. -/
theorem C8_witness :
    analyze_step env0 0 false objIgnore st0 prop0 = st0 :=
  C8_skip_silently env0 0 false objIgnore st0 prop0 (Or.inl rfl)

/-- C10: the getter's nullable field is the is-reference test of the
normalized setter-input reference mode (not anything computed from the
getter's own output mode), and the setter descriptor, when it exists,
carries the very same nullable value. -/
theorem C10_getter_nullable_from_setter_input (env : Env)
    (prop : LibraryProperty) (type_tid : TypeId) (cfg : List ConfigProperty)
    (generate_trait : Bool) (obj : GObject) (tr : Trampolines)
    (imp : Imports) (g : Property)
    (hg : (analyze_property env prop type_tid cfg generate_trait obj tr
      imp).getter = some g) :
    g.nullable =
      (normalize_set_in_ref_mode
        (env.refModeOf prop.typ ParameterDirection.In)).is_ref ∧
    (∀ s, (analyze_property env prop type_tid cfg generate_trait obj tr
        imp).setter = some s → s.nullable = g.nullable) := by
  constructor
  · simp only [analyze_property] at hg
    repeat' split at hg
    all_goals first | (cases hg; rfl) | cases hg
  · intro s hss
    simp only [analyze_property] at hg hss
    repeat' split at hg
    all_goals try cases hg
    all_goals repeat' split at hss
    all_goals first | (cases hss; rfl) | cases hss

/-- C10 witness: the concrete property `"active"` produces a getter whose
nullable field is the is-reference test of the normalized input mode. -/
theorem C10_witness :
    (analyze_property env0 prop0 0 [] false obj0 [] []).getter =
      some getter0 ∧
    getter0.nullable =
      (normalize_set_in_ref_mode
        (env0.refModeOf prop0.typ ParameterDirection.In)).is_ref :=
  ⟨rfl, (C10_getter_nullable_from_setter_input env0 prop0 0 [] false obj0 []
    [] getter0 rfl).1⟩


/-- C4: the notification signal's lifecycle.  A signal descriptor exists
exactly when trampoline synthesis succeeds; on failure no signal descriptor
is built and no symbol requirement is registered inside the property's
analysis; the getter and setter do not depend on the trampoline
synthesizer at all; and one step of the property loop appends exactly the
produced signal (if any) to the accumulated signal list, before and
independently of the getter/setter survival test. -/
theorem C4_notify_signal_lifecycle (env : Env) (prop : LibraryProperty)
    (type_tid : TypeId) (cfg : List ConfigProperty) (generate_trait : Bool)
    (obj : GObject) (tr : Trampolines) (imp : Imports) (st : AnalyzeState) :
    ((analyze_property env prop type_tid cfg generate_trait obj tr
        imp).notify_signal.isSome =
      isOkE (env.trampolineAnalyze tr
        (notify_signal_shape env prop.name
          (prop_effective_version cfg prop.version) prop.deprecated_version)
        type_tid generate_trait obj
        (prop_effective_version cfg prop.version)).1) ∧
    (isOkE (env.trampolineAnalyze tr
        (notify_signal_shape env prop.name
          (prop_effective_version cfg prop.version) prop.deprecated_version)
        type_tid generate_trait obj
        (prop_effective_version cfg prop.version)).1 = false →
      (analyze_property env prop type_tid cfg generate_trait obj tr
        imp).notify_signal = none ∧
      (analyze_property env prop type_tid cfg generate_trait obj tr
        imp).imports = imp) ∧
    (∀ f,
      (analyze_property { env with trampolineAnalyze := f } prop type_tid
        cfg generate_trait obj tr imp).getter =
        (analyze_property env prop type_tid cfg generate_trait obj tr
          imp).getter ∧
      (analyze_property { env with trampolineAnalyze := f } prop type_tid
        cfg generate_trait obj tr imp).setter =
        (analyze_property env prop type_tid cfg generate_trait obj tr
          imp).setter) ∧
    ((obj.propertiesMatched prop.name).any (fun f => f.ignore) = false →
      env.is_totally_deprecated prop.deprecated_version = false →
      (analyze_step env type_tid generate_trait obj st prop).notify_signals =
        st.notify_signals ++
          (analyze_property env prop type_tid
            (obj.propertiesMatched prop.name) generate_trait obj
            st.trampolines st.imports).notify_signal.toList) := by
  refine ⟨?_, ?_, ?_, ?_⟩
  · rcases h : (env.trampolineAnalyze tr
        (notify_signal_shape env prop.name
          (prop_effective_version cfg prop.version) prop.deprecated_version)
        type_tid generate_trait obj
        (prop_effective_version cfg prop.version)).1 with e | tn <;>
      simp [analyze_property, h, isOkE]
  · intro hfail
    rcases h : (env.trampolineAnalyze tr
        (notify_signal_shape env prop.name
          (prop_effective_version cfg prop.version) prop.deprecated_version)
        type_tid generate_trait obj
        (prop_effective_version cfg prop.version)).1 with e | tn
    · constructor <;> simp [analyze_property, h]
    · rw [h] at hfail
      simp [isOkE] at hfail
  · intro f
    constructor <;>
      simp [analyze_property, suppress_by_signature, get_type_default_value]
  · intro hig hdep
    rcases hns : (analyze_property env prop type_tid
        (obj.propertiesMatched prop.name) generate_trait obj st.trampolines
        st.imports).notify_signal with _ | ns <;>
      rcases hg : (analyze_property env prop type_tid
        (obj.propertiesMatched prop.name) generate_trait obj st.trampolines
        st.imports).getter with _ | g <;>
      rcases hst : (analyze_property env prop type_tid
        (obj.propertiesMatched prop.name) generate_trait obj st.trampolines
        st.imports).setter with _ | s <;>
      simp [analyze_step, hig, hdep, hns, hg, hst]

/-- C4 witness: with a failing trampoline synthesizer the concrete property
`"active"` yields no signal descriptor and registers nothing, while one
loop step with the succeeding synthesizer appends exactly the produced
signal. -/
theorem C4_witness :
    (analyze_property envTF prop0 0 [] false obj0 [] []).notify_signal =
      none ∧
    (analyze_property envTF prop0 0 [] false obj0 [] []).imports = [] ∧
    (analyze_step env0 0 false obj0 st0 prop0).notify_signals =
      st0.notify_signals ++
        (analyze_property env0 prop0 0 (obj0.propertiesMatched prop0.name)
          false obj0 st0.trampolines st0.imports).notify_signal.toList :=
  ⟨((C4_notify_signal_lifecycle envTF prop0 0 [] false obj0 [] []
      st0).2.1 rfl).1,
    ((C4_notify_signal_lifecycle envTF prop0 0 [] false obj0 [] []
      st0).2.1 rfl).2,
    (C4_notify_signal_lifecycle env0 prop0 0 [] false obj0 [] [] st0).2.2.2
      rfl rfl⟩
